import Mathlib

/-!
# Verification of `utils/call_llm.py`

A shallow embedding of the single operation `call_llm(prompt, use_cache)` of the
repository, together with proofs of the specified properties.

The Python function has these observable collaborators:
* a logger (all logging is wrapped so that failures are swallowed);
* a cache file `llm_cache.json`, read with `json.load` and written with
  `json.dump(..., ensure_ascii=False, indent=4)`;
* a remote generation client (`client.models.generate_content`), which either
  raises or returns a response whose `.text` may be `None`.

We model a single run as a pure function of:
* the prompt and the `use_cache` flag;
* the state of the cache file at the first read and at the reload before saving
  (these coincide in a sequential run, but are kept separate so that the
  "reload before save" step is visible in the model);
* an oracle for the collaborator outcomes (remote call result, save success,
  logging success).

The run produces an observable trace: the returned value (or an escaped
`TypeError`), the sequence of log messages attempted, the number of cache-file
reads, whether the remote client was invoked, and the mapping written to the
cache file (if any successful write happened).

Values deserialized from the cache file are arbitrary JSON values, so the model
of Python's `in`, subscript and item-assignment operators on them is partial:
they raise `TypeError` exactly where Python does.
-/

/-- JSON values, as produced by Python's `json.load`.  A JSON object is an
association list of string keys (as returned by `json.load`, keys are unique). -/
inductive JValue where
  | jstr (s : String)
  | jnum (n : Int)
  | jbool (b : Bool)
  | jnull
  | jarr (xs : List JValue)
  | jobj (fields : List (String × JValue))
deriving Repr

/-- State of the cache file `llm_cache.json` at a read point: absent
(`os.path.exists` is false), present but unparsable (`json.load` raises, with
the exception text), or present and parsing to a JSON value. -/
inductive CacheFile where
  | absent
  | invalid (err : String)
  | parsed (v : JValue)
deriving Repr

/-- Outcomes of the collaborators for one run: the remote generation call
(either raises with a message, or returns an optional response body, `none`
standing for a `None` `.text`), the cache save (`none` = success, `some err` =
`json.dump`/`open` raised), and whether each of the three wrapped `logger.info`
calls succeeds (these failures are swallowed by the code). -/
structure Collaborators where
  remote : Except String (Option String)
  save : Option String
  logPromptOk : Bool
  logHitOk : Bool
  logApiOk : Bool
deriving Repr

/-- Levels of the log records emitted through `logger`. -/
inductive LogLevel where
  | info
  | warning
  | error
deriving Repr, DecidableEq

/-- Observable trace of one run of `call_llm`:
* `result`: `Except.ok v` if the function returns `v`; `Except.error ()` if a
  `TypeError` escapes the function (no handler catches it);
* `logs`: the log messages attempted through `logger`, in order;
* `reads`: how many times the cache file was opened for reading;
* `remoteCalled`: whether the remote generation client was invoked;
* `written`: `some m` iff a successful write of mapping `m` to the cache file
  happened. -/
structure RunResult where
  result : Except Unit JValue
  logs : List (LogLevel × String)
  reads : Nat
  remoteCalled : Bool
  written : Option (List (String × JValue))
deriving Repr

/-- Python string rendering used in f-string log messages (`f"RESPONSE
(cached): ..."` can interpolate a non-string cache value). -/
def pyStr : JValue → String
  | .jstr s => s
  | .jnum n => toString n
  | .jbool true => "True"
  | .jbool false => "False"
  | .jnull => "None"
  | .jarr _ => "<list>"
  | .jobj _ => "<dict>"

/-- `decide`-friendly substring test on character lists (Python `in` on `str`). -/
def chIsPrefixOf : List Char → List Char → Bool
  | [], _ => true
  | _ :: _, [] => false
  | a :: as, b :: bs => a = b && chIsPrefixOf as bs

/-- Python substring containment `p in s` for strings. -/
def chIsInfixOf (p : List Char) : List Char → Bool
  | [] => chIsPrefixOf p []
  | b :: rest' => chIsPrefixOf p (b :: rest') || chIsInfixOf p rest'

/-- Python membership test `prompt in cache`.  On a dict it tests key
membership, on a list it tests element equality (a `str` only equals a `str`),
on a string it tests substring containment, and on `int`/`float`/`bool`/`None`
it raises `TypeError` (modelled by `Except.error ()`). -/
def pyContains (v : JValue) (p : String) : Except Unit Bool :=
  match v with
  | .jobj fields => .ok (fields.any (fun kv => kv.1 = p))
  | .jarr xs => .ok (xs.any (fun x => match x with | .jstr s => s = p | _ => false))
  | .jstr s => .ok (chIsInfixOf p.data s.data)
  | _ => .error ()

/-- Python subscript `cache[prompt]` with a string index: dict lookup; raises
`TypeError` on a list or string (string indices must be integers), and on any
other value; a missing dict key raises `KeyError` (also `Except.error ()`, but
unreachable after a true membership test). -/
def pySubscript (v : JValue) (p : String) : Except Unit JValue :=
  match v with
  | .jobj fields =>
    match fields.find? (fun kv => kv.1 = p) with
    | some kv => .ok kv.2
    | none => .error ()
  | _ => .error ()

/-- Python dict item assignment `cache[prompt] = v` on an association list:
overwrite the value in place if the key exists, else append the new pair. -/
def dictInsert : List (String × JValue) → String → JValue → List (String × JValue)
  | [], k, v => [(k, v)]
  | (k', v') :: rest, k, v =>
    if k' = k then (k, v) :: rest else (k', v') :: dictInsert rest k v

/-- Dict lookup on an association list (first matching key). -/
def dictLookup (fields : List (String × JValue)) (k : String) : Option JValue :=
  (fields.find? (fun kv => kv.1 = k)).map (fun kv => kv.2)

/-- The value of the local variable `cache` after the load block
`cache = {}; if os.path.exists(...): try: cache = json.load(f) except: cache = {}`:
an absent or unparsable file yields the empty dict, a parsed file yields its
parsed value (whatever JSON value that is). -/
def loadView : CacheFile → JValue
  | .absent => .jobj []
  | .invalid _ => .jobj []
  | .parsed v => v

/-- The warning messages emitted by the first cache-load block. -/
def loadWarnings : CacheFile → List (LogLevel × String)
  | .invalid err =>
    [(.warning, "Failed to load cache: " ++ err ++ ", starting with empty cache")]
  | _ => []

/-- How many file reads the load block performs (the file is opened iff it
exists, even when parsing then fails). -/
def loadReads : CacheFile → Nat
  | .absent => 0
  | _ => 1

/-- The warning messages emitted by the reload-before-save block. -/
def reloadWarnings : CacheFile → List (LogLevel × String)
  | .invalid err => [(.warning, "Failed to reload cache before saving: " ++ err)]
  | _ => []

/-- Second half of `call_llm`, entered when the cache-check phase did not
return: the remote call, the response log, and the cache-update block.
`logs0`/`reads0` are the trace accumulated by the first phase. -/
def remoteAndSave (prompt : String) (use_cache : Bool) (cfReload : CacheFile)
    (co : Collaborators) (logs0 : List (LogLevel × String)) (reads0 : Nat) :
    RunResult :=
  match co.remote with
  | .error e =>
    { result := .ok (.jstr ("Error calling LLM: " ++ e))
      logs := logs0 ++ [(.error, "Error calling LLM API: " ++ e)]
      reads := reads0
      remoteCalled := true
      written := none }
  | .ok body =>
    let response_text := body.getD ""
    let logs1 := logs0 ++ [(.info, "RESPONSE (API): " ++ response_text)]
    if use_cache then
      let logs2 := logs1 ++ reloadWarnings cfReload
      let reads2 := reads0 + loadReads cfReload
      match loadView cfReload with
      | .jobj fields =>
        let updated := dictInsert fields prompt (.jstr response_text)
        match co.save with
        | none =>
          { result := .ok (.jstr response_text)
            logs := logs2
            reads := reads2
            remoteCalled := true
            written := some updated }
        | some serr =>
          { result := .ok (.jstr response_text)
            logs := logs2 ++ [(.error, "Failed to save cache: " ++ serr)]
            reads := reads2
            remoteCalled := true
            written := none }
      | _ =>
        { result := .error ()
          logs := logs2
          reads := reads2
          remoteCalled := true
          written := none }
    else
      { result := .ok (.jstr response_text)
        logs := logs1
        reads := reads0
        remoteCalled := true
        written := none }

/-- Shallow embedding of `call_llm(prompt, use_cache)` from
`utils/call_llm.py`.  `cf` is the cache-file state at the first read, and
`cfReload` the state seen by the reload-before-save block (equal to `cf` in a
sequential run). -/
def call_llm (prompt : String) (use_cache : Bool) (cf cfReload : CacheFile)
    (co : Collaborators) : RunResult :=
  let logPrompt : List (LogLevel × String) := [(.info, "PROMPT: " ++ prompt)]
  if use_cache then
    let logs0 := logPrompt ++ loadWarnings cf
    let reads0 := loadReads cf
    match pyContains (loadView cf) prompt with
    | .error _ =>
      { result := .error (), logs := logs0, reads := reads0
        remoteCalled := false, written := none }
    | .ok true =>
      match pySubscript (loadView cf) prompt with
      | .error _ =>
        { result := .error (), logs := logs0, reads := reads0
          remoteCalled := false, written := none }
      | .ok v =>
        { result := .ok v
          logs := logs0 ++ [(.info, "RESPONSE (cached): " ++ pyStr v)]
          reads := reads0
          remoteCalled := false
          written := none }
    | .ok false => remoteAndSave prompt use_cache cfReload co logs0 reads0
  else
    remoteAndSave prompt use_cache cfReload co logPrompt 0

/-- A cache-file state whose parsed content (when present and parsable) is a
JSON object — the only shape on which Python's dict operations cannot raise
`TypeError`. -/
def dictShaped : CacheFile → Bool
  | .parsed (.jobj _) => true
  | .parsed _ => false
  | _ => true

/-- The key/value entries the load block effectively works with, for a
dict-shaped cache-file state. -/
def viewFields : CacheFile → List (String × JValue)
  | .parsed (.jobj fields) => fields
  | _ => []

lemma loadView_eq_jobj (cf : CacheFile) (h : dictShaped cf = true) :
    loadView cf = .jobj (viewFields cf) := by
  cases cf with
  | absent => rfl
  | invalid err => rfl
  | parsed v => cases v <;> first | rfl | simp [dictShaped] at h

lemma dictLookup_dictInsert_self (fs : List (String × JValue)) (k : String)
    (v : JValue) : dictLookup (dictInsert fs k v) k = some v := by
  induction fs with
  | nil => simp [dictInsert, dictLookup, List.find?]
  | cons hd tl ih =>
    obtain ⟨k', v'⟩ := hd
    by_cases h : k' = k
    · simp [dictInsert, h, dictLookup, List.find?]
    · simpa [dictInsert, h, dictLookup, List.find?] using ih

lemma dictLookup_dictInsert_ne (fs : List (String × JValue)) (k k' : String)
    (v : JValue) (h : k' ≠ k) :
    dictLookup (dictInsert fs k v) k' = dictLookup fs k' := by
  have h2 : k ≠ k' := Ne.symm h
  induction fs with
  | nil => simp [dictInsert, dictLookup, List.find?, h2]
  | cons hd tl ih =>
    obtain ⟨k0, v0⟩ := hd
    by_cases h0 : k0 = k
    · subst h0
      simp [dictInsert, dictLookup, List.find?, h2]
    · by_cases h1 : k0 = k'
      · simp [dictInsert, h0, dictLookup, List.find?, h1, h]
      · simpa [dictInsert, h0, dictLookup, List.find?, h1] using ih

lemma dictLookup_some_any (fs : List (String × JValue)) (k : String)
    (v : JValue) (h : dictLookup fs k = some v) :
    fs.any (fun kv => kv.1 = k) = true := by
  rcases Option.map_eq_some'.mp h with ⟨kv, hfind, hv⟩
  have hp := List.find?_some hfind
  rw [List.any_eq_true]
  exact ⟨kv, List.mem_of_find?_eq_some hfind, hp⟩

/-- Shared description of a cache-hit run: when the first read parses to an
object binding the prompt, `call_llm` returns the stored value without
invoking the remote client, reading once and writing nothing. -/
lemma call_llm_hit (prompt : String) (fields : List (String × JValue))
    (v : JValue) (cfReload : CacheFile) (co : Collaborators)
    (h : dictLookup fields prompt = some v) :
    call_llm prompt true (CacheFile.parsed (JValue.jobj fields)) cfReload co =
      { result := .ok v
        logs := [(.info, "PROMPT: " ++ prompt),
                 (.info, "RESPONSE (cached): " ++ pyStr v)]
        reads := 1
        remoteCalled := false
        written := none } := by
  have hany := dictLookup_some_any fields prompt v h
  rcases Option.map_eq_some'.mp h with ⟨kv, hfind, hv⟩
  simp [call_llm, loadView, loadWarnings, loadReads, pyContains, hany,
    pySubscript, hfind, hv]

lemma any_key_find_some (fs : List (String × JValue)) (k : String)
    (h : fs.any (fun kv => kv.1 = k) = true) :
    ∃ kv, fs.find? (fun kv => kv.1 = k) = some kv := by
  induction fs with
  | nil => simp at h
  | cons hd tl ih =>
    by_cases h0 : hd.1 = k
    · exact ⟨hd, by simp [List.find?_cons_of_pos, h0]⟩
    · obtain ⟨kv, hkv⟩ := ih (by simpa [h0] using h)
      exact ⟨kv, by simp [List.find?_cons_of_neg, h0, hkv]⟩

lemma remoteAndSave_ok (prompt : String) (uc : Bool) (cfReload : CacheFile)
    (co : Collaborators) (logs0 : List (LogLevel × String)) (reads0 : Nat)
    (h2 : dictShaped cfReload = true) :
    ∃ s, (remoteAndSave prompt uc cfReload co logs0 reads0).result =
      Except.ok (JValue.jstr s) := by
  cases hre : co.remote with
  | error e => exact ⟨"Error calling LLM: " ++ e, by simp [remoteAndSave, hre]⟩
  | ok body =>
    cases uc with
    | false => exact ⟨body.getD "", by simp [remoteAndSave, hre]⟩
    | true =>
      refine ⟨body.getD "", ?_⟩
      rw [remoteAndSave]
      simp only [hre]
      rw [loadView_eq_jobj cfReload h2]
      cases hsv : co.save <;> simp [hsv]

/-- C1 (counterexample): the claim that `call_llm` never raises past its own
boundary is false as stated: with a cache file whose content is the valid JSON
literal `null`, `prompt in cache` raises a `TypeError` that no handler
catches, for an otherwise fully successful collaborator outcome. -/
theorem call_llm_raise_on_null_cache_cex :
    (call_llm "q" true (CacheFile.parsed JValue.jnull)
      (CacheFile.parsed JValue.jnull)
      ⟨Except.ok (some "resp"), none, true, true, true⟩).result =
      Except.error () := rfl

/-- C1 (amended): for every prompt, caching flag, and collaborator outcome,
provided the cache file (at both read points) is absent, unparsable, or parses
to a JSON object, `call_llm` returns normally — every failure is converted
into an in-band error string or a swallowed warning; moreover whenever the
remote client was invoked the returned value is a string. -/
theorem call_llm_no_raise_of_dict_shaped (prompt : String) (uc : Bool)
    (cf cfReload : CacheFile) (co : Collaborators)
    (h1 : dictShaped cf = true) (h2 : dictShaped cfReload = true) :
    ∃ v, (call_llm prompt uc cf cfReload co).result = Except.ok v ∧
      ((call_llm prompt uc cf cfReload co).remoteCalled = true →
        ∃ s, v = JValue.jstr s) := by
  cases uc with
  | false =>
    obtain ⟨s, hs⟩ := remoteAndSave_ok prompt false cfReload co
      [(.info, "PROMPT: " ++ prompt)] 0 h2
    exact ⟨.jstr s, by simpa [call_llm] using hs, fun _ => ⟨s, rfl⟩⟩
  | true =>
    have hv := loadView_eq_jobj cf h1
    cases hany : (viewFields cf).any (fun kv => kv.1 = prompt) with
    | true =>
      obtain ⟨kv2, hfind⟩ := any_key_find_some (viewFields cf) prompt hany
      refine ⟨kv2.2, ?_, ?_⟩
      · simp [call_llm, hv, pyContains, pySubscript, hany, hfind]
      · intro hrc
        exfalso
        simp [call_llm, hv, pyContains, pySubscript, hany, hfind] at hrc
    | false =>
      obtain ⟨s, hs⟩ := remoteAndSave_ok prompt true cfReload co
        ((LogLevel.info, "PROMPT: " ++ prompt) :: loadWarnings cf)
        (loadReads cf) h2
      refine ⟨.jstr s, ?_, fun _ => ⟨s, rfl⟩⟩
      simpa [call_llm, hv, pyContains, hany] using hs

/-- C1 (witness): the amended theorem applied at a concrete input. -/
theorem call_llm_no_raise_witness :
    ∃ v, (call_llm "p" true CacheFile.absent CacheFile.absent
      ⟨Except.ok (some "resp"), none, true, true, true⟩).result = Except.ok v ∧
      ((call_llm "p" true CacheFile.absent CacheFile.absent
        ⟨Except.ok (some "resp"), none, true, true, true⟩).remoteCalled = true →
        ∃ s, v = JValue.jstr s) :=
  call_llm_no_raise_of_dict_shaped "p" true CacheFile.absent CacheFile.absent
    ⟨Except.ok (some "resp"), none, true, true, true⟩ rfl rfl

/-- C3: with caching disabled, `call_llm` performs no read of the cache file
and no write to it, for every prompt, cache-file state and collaborator
outcome. -/
theorem call_llm_disabled_no_cache_io (prompt : String)
    (cf cfReload : CacheFile) (co : Collaborators) :
    (call_llm prompt false cf cfReload co).reads = 0 ∧
    (call_llm prompt false cf cfReload co).written = none := by
  cases hre : co.remote <;> simp [call_llm, remoteAndSave, hre]

/-- C9: a cache file whose content is valid JSON but not an object makes a
`TypeError` escape `call_llm`: the literal `42` (membership test on an `int`),
a list containing the prompt (subscripting a list with a string), and — on the
cache-update path — a reload that parses to the literal `7` (item assignment
on an `int`). -/
theorem call_llm_typeerror_on_non_object_cache :
    (call_llm "p" true (CacheFile.parsed (JValue.jnum 42))
        (CacheFile.parsed (JValue.jnum 42))
        ⟨Except.ok (some "resp"), none, true, true, true⟩).result =
      Except.error () ∧
    (call_llm "p" true (CacheFile.parsed (JValue.jarr [JValue.jstr "p"]))
        (CacheFile.parsed (JValue.jarr [JValue.jstr "p"]))
        ⟨Except.ok (some "resp"), none, true, true, true⟩).result =
      Except.error () ∧
    (call_llm "p" true CacheFile.absent (CacheFile.parsed (JValue.jnum 7))
        ⟨Except.ok (some "resp"), none, true, true, true⟩).result =
      Except.error () :=
  ⟨rfl, rfl, rfl⟩

/-- C10: on a cache hit, `call_llm` returns the stored value exactly as
deserialized, with no type check and without invoking the remote client — in
particular a stored non-string JSON value is returned as-is, despite the
declared string return type. -/
theorem call_llm_cache_hit_returns_stored (prompt : String)
    (fields : List (String × JValue)) (v : JValue) (cfReload : CacheFile)
    (co : Collaborators) (h : dictLookup fields prompt = some v) :
    (call_llm prompt true (CacheFile.parsed (JValue.jobj fields))
        cfReload co).result = Except.ok v ∧
    (call_llm prompt true (CacheFile.parsed (JValue.jobj fields))
        cfReload co).remoteCalled = false := by
  rw [call_llm_hit prompt fields v cfReload co h]
  exact ⟨rfl, rfl⟩

/-- C10 (witness): a cache file mapping the prompt to the JSON number `3`
makes `call_llm` return that non-string value. -/
theorem call_llm_cache_hit_witness :
    (call_llm "p" true (CacheFile.parsed (JValue.jobj [("p", JValue.jnum 3)]))
        CacheFile.absent
        ⟨Except.ok (some "resp"), none, true, true, true⟩).result =
      Except.ok (JValue.jnum 3) ∧
    (call_llm "p" true (CacheFile.parsed (JValue.jobj [("p", JValue.jnum 3)]))
        CacheFile.absent
        ⟨Except.ok (some "resp"), none, true, true, true⟩).remoteCalled =
      false :=
  call_llm_cache_hit_returns_stored "p" [("p", JValue.jnum 3)] (JValue.jnum 3)
    CacheFile.absent ⟨Except.ok (some "resp"), none, true, true, true⟩ rfl

/-- C4: when the prompt is not in the cache and the remote call raises,
`call_llm` does not propagate the exception: it returns the in-band error
string embedding the failure description, logs the failure at error level,
and never writes anything to the cache file. -/
theorem call_llm_remote_failure_in_band (prompt : String) (uc : Bool)
    (cf cfReload : CacheFile) (co : Collaborators) (e : String)
    (hremote : co.remote = Except.error e)
    (hmiss : pyContains (loadView cf) prompt = Except.ok false) :
    (call_llm prompt uc cf cfReload co).result =
      Except.ok (JValue.jstr ("Error calling LLM: " ++ e)) ∧
    (call_llm prompt uc cf cfReload co).written = none ∧
    (LogLevel.error, "Error calling LLM API: " ++ e) ∈
      (call_llm prompt uc cf cfReload co).logs := by
  cases uc with
  | false => simp [call_llm, remoteAndSave, hremote]
  | true => simp [call_llm, remoteAndSave, hremote, hmiss]

/-- C4 (witness): the theorem applied with an absent cache file and a remote
failure message. -/
theorem call_llm_remote_failure_witness :
    (call_llm "p" true CacheFile.absent CacheFile.absent
      ⟨Except.error "boom", none, true, true, true⟩).result =
      Except.ok (JValue.jstr ("Error calling LLM: " ++ "boom")) ∧
    (call_llm "p" true CacheFile.absent CacheFile.absent
      ⟨Except.error "boom", none, true, true, true⟩).written = none ∧
    (LogLevel.error, "Error calling LLM API: " ++ "boom") ∈
      (call_llm "p" true CacheFile.absent CacheFile.absent
        ⟨Except.error "boom", none, true, true, true⟩).logs :=
  call_llm_remote_failure_in_band "p" true CacheFile.absent CacheFile.absent
    ⟨Except.error "boom", none, true, true, true⟩ "boom" rfl rfl

/-- C2: a cached-miss call with caching enabled and a successful remote call
stores the prompt-to-response entry; a subsequent call with the
character-for-character identical prompt returns exactly the stored value
without invoking the remote client; keys are matched by exact string equality
only (entries under any other key are untouched). -/
theorem call_llm_cache_roundtrip (prompt s : String) (cf : CacheFile)
    (co1 co2 : Collaborators)
    (hshape : dictShaped cf = true)
    (hmiss : (viewFields cf).any (fun kv => kv.1 = prompt) = false)
    (hremote : co1.remote = Except.ok (some s))
    (hsave : co1.save = none) :
    (call_llm prompt true cf cf co1).written =
      some (dictInsert (viewFields cf) prompt (JValue.jstr s)) ∧
    dictLookup (dictInsert (viewFields cf) prompt (JValue.jstr s)) prompt =
      some (JValue.jstr s) ∧
    (call_llm prompt true
        (CacheFile.parsed (JValue.jobj
          (dictInsert (viewFields cf) prompt (JValue.jstr s))))
        (CacheFile.parsed (JValue.jobj
          (dictInsert (viewFields cf) prompt (JValue.jstr s))))
        co2).result = Except.ok (JValue.jstr s) ∧
    (call_llm prompt true
        (CacheFile.parsed (JValue.jobj
          (dictInsert (viewFields cf) prompt (JValue.jstr s))))
        (CacheFile.parsed (JValue.jobj
          (dictInsert (viewFields cf) prompt (JValue.jstr s))))
        co2).remoteCalled = false ∧
    (∀ p2, p2 ≠ prompt →
      dictLookup (dictInsert (viewFields cf) prompt (JValue.jstr s)) p2 =
        dictLookup (viewFields cf) p2) := by
  have hv := loadView_eq_jobj cf hshape
  have hhit := call_llm_hit prompt
    (dictInsert (viewFields cf) prompt (JValue.jstr s)) (JValue.jstr s)
    (CacheFile.parsed (JValue.jobj
      (dictInsert (viewFields cf) prompt (JValue.jstr s))))
    co2 (dictLookup_dictInsert_self _ _ _)
  refine ⟨?_, dictLookup_dictInsert_self _ _ _, ?_, ?_,
    fun p2 hp2 => dictLookup_dictInsert_ne _ _ _ _ hp2⟩
  · simp [call_llm, hv, pyContains, hmiss, remoteAndSave, hremote, hsave]
  · rw [hhit]
  · rw [hhit]

/-- C2 (witness): the spec's own example, starting from an absent cache file:
the first call for "2+2=?" stores the entry and the second call returns the
stored "4" without invoking the remote client. -/
theorem call_llm_cache_roundtrip_witness :
    (call_llm "2+2=?" true CacheFile.absent CacheFile.absent
      ⟨Except.ok (some "4"), none, true, true, true⟩).written =
      some (dictInsert (viewFields CacheFile.absent) "2+2=?"
        (JValue.jstr "4")) ∧
    dictLookup (dictInsert (viewFields CacheFile.absent) "2+2=?"
        (JValue.jstr "4")) "2+2=?" = some (JValue.jstr "4") ∧
    (call_llm "2+2=?" true
        (CacheFile.parsed (JValue.jobj
          (dictInsert (viewFields CacheFile.absent) "2+2=?"
            (JValue.jstr "4"))))
        (CacheFile.parsed (JValue.jobj
          (dictInsert (viewFields CacheFile.absent) "2+2=?"
            (JValue.jstr "4"))))
        ⟨Except.ok (some "other"), none, true, true, true⟩).result =
      Except.ok (JValue.jstr "4") ∧
    (call_llm "2+2=?" true
        (CacheFile.parsed (JValue.jobj
          (dictInsert (viewFields CacheFile.absent) "2+2=?"
            (JValue.jstr "4"))))
        (CacheFile.parsed (JValue.jobj
          (dictInsert (viewFields CacheFile.absent) "2+2=?"
            (JValue.jstr "4"))))
        ⟨Except.ok (some "other"), none, true, true, true⟩).remoteCalled =
      false ∧
    (∀ p2, p2 ≠ "2+2=?" →
      dictLookup (dictInsert (viewFields CacheFile.absent) "2+2=?"
          (JValue.jstr "4")) p2 =
        dictLookup (viewFields CacheFile.absent) p2) :=
  call_llm_cache_roundtrip "2+2=?" "4" CacheFile.absent
    ⟨Except.ok (some "4"), none, true, true, true⟩
    ⟨Except.ok (some "other"), none, true, true, true⟩ rfl rfl rfl rfl

/-- C5 (counterexample): with an absent cache file and a failing remote call,
`call_llm` returns the in-band error string but writes no fresh cache file at
all — the claim that a fresh cache file containing the new entry is "still"
written is false on the remote-failure path. -/
theorem call_llm_no_write_on_remote_failure_cex :
    (call_llm "p" true CacheFile.absent CacheFile.absent
      ⟨Except.error "down", none, true, true, true⟩).written = none ∧
    (call_llm "p" true CacheFile.absent CacheFile.absent
      ⟨Except.error "down", none, true, true, true⟩).result =
      Except.ok (JValue.jstr ("Error calling LLM: " ++ "down")) :=
  ⟨rfl, rfl⟩

/-- C5 (amended): if the cache file is absent or unparsable, a call with
caching enabled does not fail: it behaves exactly as if the cache were empty
(same returned result and same written mapping as a run over an empty parsed
cache), always produces a response string (real or error-string), and — when
the remote call succeeds and the file write itself succeeds — writes a fresh
cache file containing exactly the new entry. -/
theorem call_llm_empty_cache_behavior (prompt : String) (cf : CacheFile)
    (co : Collaborators)
    (hempty : cf = CacheFile.absent ∨ ∃ err, cf = CacheFile.invalid err) :
    (∃ s, (call_llm prompt true cf cf co).result =
      Except.ok (JValue.jstr s)) ∧
    (call_llm prompt true cf cf co).result =
      (call_llm prompt true (CacheFile.parsed (JValue.jobj []))
        (CacheFile.parsed (JValue.jobj [])) co).result ∧
    (call_llm prompt true cf cf co).written =
      (call_llm prompt true (CacheFile.parsed (JValue.jobj []))
        (CacheFile.parsed (JValue.jobj [])) co).written ∧
    (∀ body, co.remote = Except.ok body → co.save = none →
      (call_llm prompt true cf cf co).written =
        some [(prompt, JValue.jstr (body.getD ""))]) := by
  rcases hempty with h | ⟨err, h⟩ <;> subst h <;> refine ⟨?_, ?_, ?_, ?_⟩
  · cases hre : co.remote with
    | error e =>
      exact ⟨"Error calling LLM: " ++ e,
        by simp [call_llm, loadView, pyContains, remoteAndSave, hre]⟩
    | ok body =>
      refine ⟨body.getD "", ?_⟩
      cases hsv : co.save <;>
        simp [call_llm, loadView, pyContains, remoteAndSave, hre, hsv]
  · cases hre : co.remote with
    | error e => simp [call_llm, loadView, pyContains, remoteAndSave, hre]
    | ok body =>
      cases hsv : co.save <;>
        simp [call_llm, loadView, pyContains, remoteAndSave, hre, hsv]
  · cases hre : co.remote with
    | error e => simp [call_llm, loadView, pyContains, remoteAndSave, hre]
    | ok body =>
      cases hsv : co.save <;>
        simp [call_llm, loadView, pyContains, remoteAndSave, hre, hsv,
          viewFields]
  · intro body hre hsv
    simp [call_llm, loadView, pyContains, remoteAndSave, hre, hsv, dictInsert]
  · cases hre : co.remote with
    | error e =>
      exact ⟨"Error calling LLM: " ++ e,
        by simp [call_llm, loadView, loadWarnings, pyContains, remoteAndSave,
          hre]⟩
    | ok body =>
      refine ⟨body.getD "", ?_⟩
      cases hsv : co.save <;>
        simp [call_llm, loadView, loadWarnings, pyContains, remoteAndSave,
          hre, hsv]
  · cases hre : co.remote with
    | error e =>
      simp [call_llm, loadView, loadWarnings, pyContains, remoteAndSave, hre]
    | ok body =>
      cases hsv : co.save <;>
        simp [call_llm, loadView, loadWarnings, pyContains, remoteAndSave,
          hre, hsv]
  · cases hre : co.remote with
    | error e =>
      simp [call_llm, loadView, loadWarnings, pyContains, remoteAndSave, hre]
    | ok body =>
      cases hsv : co.save <;>
        simp [call_llm, loadView, loadWarnings, pyContains, remoteAndSave,
          hre, hsv, viewFields]
  · intro body hre hsv
    simp [call_llm, loadView, loadWarnings, pyContains, remoteAndSave, hre,
      hsv, dictInsert]

/-- C5 (witness): the amended theorem applied to an unparsable cache file with
a successful remote call. -/
theorem call_llm_empty_cache_witness :
    (∃ s, (call_llm "p" true (CacheFile.invalid "bad json")
      (CacheFile.invalid "bad json")
      ⟨Except.ok (some "resp"), none, true, true, true⟩).result =
      Except.ok (JValue.jstr s)) ∧
    (call_llm "p" true (CacheFile.invalid "bad json")
      (CacheFile.invalid "bad json")
      ⟨Except.ok (some "resp"), none, true, true, true⟩).result =
      (call_llm "p" true (CacheFile.parsed (JValue.jobj []))
        (CacheFile.parsed (JValue.jobj []))
        ⟨Except.ok (some "resp"), none, true, true, true⟩).result ∧
    (call_llm "p" true (CacheFile.invalid "bad json")
      (CacheFile.invalid "bad json")
      ⟨Except.ok (some "resp"), none, true, true, true⟩).written =
      (call_llm "p" true (CacheFile.parsed (JValue.jobj []))
        (CacheFile.parsed (JValue.jobj []))
        ⟨Except.ok (some "resp"), none, true, true, true⟩).written ∧
    (∀ body, (⟨Except.ok (some "resp"), none, true, true, true⟩ :
        Collaborators).remote = Except.ok body →
      (⟨Except.ok (some "resp"), none, true, true, true⟩ :
        Collaborators).save = none →
      (call_llm "p" true (CacheFile.invalid "bad json")
        (CacheFile.invalid "bad json")
        ⟨Except.ok (some "resp"), none, true, true, true⟩).written =
        some [("p", JValue.jstr (body.getD ""))]) :=
  call_llm_empty_cache_behavior "p" (CacheFile.invalid "bad json")
    ⟨Except.ok (some "resp"), none, true, true, true⟩
    (Or.inr ⟨"bad json", rfl⟩)

/-- C6: a successful remote call whose response body is missing/null is
treated as the empty string: the empty string is what is logged, cached and
returned. -/
theorem call_llm_null_body_empty_string (prompt : String)
    (cf cfReload : CacheFile) (co : Collaborators)
    (hremote : co.remote = Except.ok none)
    (hmiss : pyContains (loadView cf) prompt = Except.ok false)
    (hshape2 : dictShaped cfReload = true)
    (hsave : co.save = none) :
    (call_llm prompt true cf cfReload co).result =
      Except.ok (JValue.jstr "") ∧
    (LogLevel.info, "RESPONSE (API): " ++ "") ∈
      (call_llm prompt true cf cfReload co).logs ∧
    (call_llm prompt true cf cfReload co).written =
      some (dictInsert (viewFields cfReload) prompt (JValue.jstr "")) ∧
    dictLookup (dictInsert (viewFields cfReload) prompt (JValue.jstr ""))
      prompt = some (JValue.jstr "") := by
  have hv2 := loadView_eq_jobj cfReload hshape2
  refine ⟨?_, ?_, ?_, dictLookup_dictInsert_self _ _ _⟩ <;>
    simp [call_llm, remoteAndSave, hremote, hmiss, hv2, hsave]

/-- C6 (witness): the theorem applied with an absent cache file. -/
theorem call_llm_null_body_witness :
    (call_llm "p" true CacheFile.absent CacheFile.absent
      ⟨Except.ok none, none, true, true, true⟩).result =
      Except.ok (JValue.jstr "") ∧
    (LogLevel.info, "RESPONSE (API): " ++ "") ∈
      (call_llm "p" true CacheFile.absent CacheFile.absent
        ⟨Except.ok none, none, true, true, true⟩).logs ∧
    (call_llm "p" true CacheFile.absent CacheFile.absent
      ⟨Except.ok none, none, true, true, true⟩).written =
      some (dictInsert (viewFields CacheFile.absent) "p" (JValue.jstr "")) ∧
    dictLookup (dictInsert (viewFields CacheFile.absent) "p"
      (JValue.jstr "")) "p" = some (JValue.jstr "") :=
  call_llm_null_body_empty_string "p" CacheFile.absent CacheFile.absent
    ⟨Except.ok none, none, true, true, true⟩ rfl rfl rfl rfl

/-- C7: after a successful remote call with caching requested, `call_llm`
reloads the mapping, inserts or overwrites only the entry for the given prompt
(every other reloaded entry is preserved) and writes the whole mapping back;
if the write fails, the failure is logged at error level and the returned
value is exactly the response computed before the save was attempted. -/
theorem call_llm_reload_insert_save (prompt : String) (body : Option String)
    (cf cfReload : CacheFile) (co : Collaborators)
    (hremote : co.remote = Except.ok body)
    (hmiss : pyContains (loadView cf) prompt = Except.ok false)
    (hshape2 : dictShaped cfReload = true) :
    (co.save = none →
      (call_llm prompt true cf cfReload co).written =
        some (dictInsert (viewFields cfReload) prompt
          (JValue.jstr (body.getD ""))) ∧
      dictLookup (dictInsert (viewFields cfReload) prompt
          (JValue.jstr (body.getD ""))) prompt =
        some (JValue.jstr (body.getD "")) ∧
      (∀ k, k ≠ prompt →
        dictLookup (dictInsert (viewFields cfReload) prompt
            (JValue.jstr (body.getD ""))) k =
          dictLookup (viewFields cfReload) k) ∧
      (call_llm prompt true cf cfReload co).result =
        Except.ok (JValue.jstr (body.getD ""))) ∧
    (∀ serr, co.save = some serr →
      (call_llm prompt true cf cfReload co).result =
        Except.ok (JValue.jstr (body.getD "")) ∧
      (call_llm prompt true cf cfReload co).written = none ∧
      (LogLevel.error, "Failed to save cache: " ++ serr) ∈
        (call_llm prompt true cf cfReload co).logs) := by
  have hv2 := loadView_eq_jobj cfReload hshape2
  constructor
  · intro hsv
    refine ⟨?_, dictLookup_dictInsert_self _ _ _,
      fun k hk => dictLookup_dictInsert_ne _ _ _ _ hk, ?_⟩ <;>
      simp [call_llm, remoteAndSave, hremote, hmiss, hv2, hsv]
  · intro serr hsv
    refine ⟨?_, ?_, ?_⟩ <;>
      simp [call_llm, remoteAndSave, hremote, hmiss, hv2, hsv]

/-- C7 (witness): the theorem applied to a cache file holding one other entry,
with a failing save on a second collaborator outcome. -/
theorem call_llm_reload_insert_save_witness :
    (call_llm "p" true CacheFile.absent
      (CacheFile.parsed (JValue.jobj [("other", JValue.jstr "kept")]))
      ⟨Except.ok (some "resp"), none, true, true, true⟩).written =
      some (dictInsert [("other", JValue.jstr "kept")] "p"
        (JValue.jstr "resp")) ∧
    (call_llm "p" true CacheFile.absent
      (CacheFile.parsed (JValue.jobj [("other", JValue.jstr "kept")]))
      ⟨Except.ok (some "resp"), some "disk full", true, true, true⟩).result =
      Except.ok (JValue.jstr "resp") ∧
    (call_llm "p" true CacheFile.absent
      (CacheFile.parsed (JValue.jobj [("other", JValue.jstr "kept")]))
      ⟨Except.ok (some "resp"), some "disk full", true, true, true⟩).written =
      none := by
  refine ⟨?_, ?_, ?_⟩
  · have h := (call_llm_reload_insert_save "p" (some "resp") CacheFile.absent
      (CacheFile.parsed (JValue.jobj [("other", JValue.jstr "kept")]))
      ⟨Except.ok (some "resp"), none, true, true, true⟩ rfl rfl rfl).1 rfl
    exact h.1
  · have h := ((call_llm_reload_insert_save "p" (some "resp") CacheFile.absent
      (CacheFile.parsed (JValue.jobj [("other", JValue.jstr "kept")]))
      ⟨Except.ok (some "resp"), some "disk full", true, true, true⟩
      rfl rfl rfl).2 "disk full" rfl)
    exact h.1
  · have h := ((call_llm_reload_insert_save "p" (some "resp") CacheFile.absent
      (CacheFile.parsed (JValue.jobj [("other", JValue.jstr "kept")]))
      ⟨Except.ok (some "resp"), some "disk full", true, true, true⟩
      rfl rfl rfl).2 "disk full" rfl)
    exact h.2.1

/-- Lowercase hexadecimal digit, as produced by CPython's `json` encoder for
control characters. -/
def hexDigit (n : Nat) : Char :=
  if n < 10 then Char.ofNat (48 + n) else Char.ofNat (87 + n)

/-- Value of a hexadecimal digit accepted by CPython's `json` scanner. -/
def hexVal (c : Char) : Option Nat :=
  if 48 ≤ c.toNat ∧ c.toNat ≤ 57 then some (c.toNat - 48)
  else if 97 ≤ c.toNat ∧ c.toNat ≤ 102 then some (c.toNat - 87)
  else if 65 ≤ c.toNat ∧ c.toNat ≤ 70 then some (c.toNat - 55)
  else none

/-- How `json.dump(..., ensure_ascii=False)` renders one character inside a
JSON string: backslash, double quote and the named control characters get
two-character escapes, other control characters get `\u00xx`, and every other
character — all non-ASCII text included — is emitted unescaped. -/
def escChar (c : Char) : List Char :=
  if c = '\\' then ['\\', '\\']
  else if c = '"' then ['\\', '"']
  else if c = '\x08' then ['\\', 'b']
  else if c = '\t' then ['\\', 't']
  else if c = '\n' then ['\\', 'n']
  else if c = '\x0c' then ['\\', 'f']
  else if c = '\r' then ['\\', 'r']
  else if c.toNat < 32 then
    ['\\', 'u', '0', '0', hexDigit (c.toNat / 16), hexDigit (c.toNat % 16)]
  else [c]

/-- The body of a serialized JSON string (the part between the quotes). -/
def escape : List Char → List Char
  | [] => []
  | c :: cs => escChar c ++ escape cs

/-- Decoding of the four hexadecimal digits after `\u` by `json.load`
(rejecting values in the surrogate range, which cannot stand alone). -/
def decodeU : List Char → Option (Char × List Char)
  | h1 :: h2 :: h3 :: h4 :: rest =>
    match hexVal h1, hexVal h2, hexVal h3, hexVal h4 with
    | some a, some b, some c2, some d =>
      if ((a * 16 + b) * 16 + c2) * 16 + d < 55296 then
        some (Char.ofNat (((a * 16 + b) * 16 + c2) * 16 + d), rest)
      else none
    | _, _, _, _ => none
  | _ => none

/-- One step of `json.load`'s string scanner: decode the next character of the
string body (a backslash escape, a `\uXXXX` sequence, or a plain character),
returning it with the remaining input; unescaped quotes and control characters
are rejected, as is a trailing backslash. -/
def unescapeStep : List Char → Option (Char × List Char)
  | [] => none
  | [c] => if c = '\\' ∨ c = '"' ∨ c.toNat < 32 then none else some (c, [])
  | c :: e :: rest2 =>
    if c = '\\' then
      if e = 'u' then decodeU rest2
      else if e = '\\' then some ('\\', rest2)
      else if e = '"' then some ('"', rest2)
      else if e = '/' then some ('/', rest2)
      else if e = 'b' then some ('\x08', rest2)
      else if e = 'f' then some ('\x0c', rest2)
      else if e = 'n' then some ('\n', rest2)
      else if e = 'r' then some ('\r', rest2)
      else if e = 't' then some ('\t', rest2)
      else none
    else if c = '"' ∨ c.toNat < 32 then none
    else some (c, e :: rest2)

lemma decodeU_length (l : List Char) (cr : Char × List Char)
    (h : decodeU l = some cr) : cr.2.length + 4 = l.length := by
  match l with
  | [] => simp [decodeU] at h
  | [a] => simp [decodeU] at h
  | [a, b] => simp [decodeU] at h
  | [a, b, c] => simp [decodeU] at h
  | a :: b :: c :: d :: rest =>
    rw [decodeU] at h
    split at h
    · split at h
      · injection h with h2
        subst h2
        simp
      · cases h
    · cases h

lemma unescapeStep_length (l : List Char) (cr : Char × List Char)
    (h : unescapeStep l = some cr) : cr.2.length < l.length := by
  match l with
  | [] => simp [unescapeStep] at h
  | [c] =>
    rw [unescapeStep] at h
    split at h
    · cases h
    · injection h with h2; subst h2; simp; try omega
  | c :: e :: rest2 =>
    rw [unescapeStep] at h
    split at h
    · split at h
      · have := decodeU_length _ _ h
        simp at this ⊢
        omega
      · split at h
        · injection h with h2; subst h2; simp; try omega
        · split at h
          · injection h with h2; subst h2; simp; try omega
          · split at h
            · injection h with h2; subst h2; simp; try omega
            · split at h
              · injection h with h2; subst h2; simp; try omega
              · split at h
                · injection h with h2; subst h2; simp; try omega
                · split at h
                  · injection h with h2; subst h2; simp; try omega
                  · split at h
                    · injection h with h2; subst h2; simp; try omega
                    · split at h
                      · injection h with h2; subst h2; simp; try omega
                      · cases h
    · split at h
      · cases h
      · injection h with h2; subst h2; simp; try omega

/-- How `json.load` decodes the body of a JSON string: the scanner step
iterated until the input is exhausted; any rejected step rejects the whole
body. -/
def unescape (l : List Char) : Option (List Char) :=
  if hl : l = [] then some []
  else
    match h : unescapeStep l with
    | none => none
    | some cr => (cr.1 :: ·) <$> unescape cr.2
termination_by l.length
decreasing_by exact unescapeStep_length l cr h

lemma unescape_nil : unescape [] = some [] := by
  rw [unescape]
  simp

lemma unescape_eq_step (l : List Char) (hne : l ≠ []) (c : Char)
    (rest : List Char) (h : unescapeStep l = some (c, rest)) :
    unescape l = (c :: ·) <$> unescape rest := by
  rw [unescape, dif_neg hne]
  split
  · rename_i heq
    rw [h] at heq
    cases heq
  · rename_i cr heq
    rw [h] at heq
    injection heq with h2
    subst h2
    rfl

lemma hexVal_hexDigit : ∀ n, n < 16 → hexVal (hexDigit n) = some n := by
  decide

lemma hexVal_d0 : hexVal '0' = some 0 := by decide

lemma unescapeStep_escChar (c : Char) (L : List Char) :
    unescapeStep (escChar c ++ L) = some (c, L) := by
  by_cases h1 : c = '\\'
  · subst h1; simp [escChar, unescapeStep]
  by_cases h2 : c = '"'
  · subst h2; simp [escChar, unescapeStep]
  by_cases h3 : c = '\x08'
  · subst h3; simp [escChar, unescapeStep]
  by_cases h4 : c = '\t'
  · subst h4; simp [escChar, unescapeStep]
  by_cases h5 : c = '\n'
  · subst h5; simp [escChar, unescapeStep]
  by_cases h6 : c = '\x0c'
  · subst h6; simp [escChar, unescapeStep]
  by_cases h7 : c = '\r'
  · subst h7; simp [escChar, unescapeStep]
  by_cases h8 : c.toNat < 32
  · have hd : c.toNat / 16 < 16 := by omega
    have hm : c.toNat % 16 < 16 := by omega
    have he : escChar c =
        ['\\', 'u', '0', '0', hexDigit (c.toNat / 16),
          hexDigit (c.toNat % 16)] := by
      simp [escChar, h1, h2, h3, h4, h5, h6, h7, h8]
    rw [he]
    simp only [List.cons_append, List.nil_append, unescapeStep, reduceIte]
    rw [decodeU, hexVal_d0, hexVal_hexDigit _ hd, hexVal_hexDigit _ hm]
    have hn : ((0 * 16 + 0) * 16 + c.toNat / 16) * 16 + c.toNat % 16 =
        c.toNat := by
      omega
    simp only [hn]
    rw [if_pos (by omega), Char.ofNat_toNat]
  · have he : escChar c = [c] := by
      simp [escChar, h1, h2, h3, h4, h5, h6, h7, h8]
    rw [he]
    cases L with
    | nil => simp [unescapeStep, h1, h2, h8]
    | cons x xs => simp [unescapeStep, h1, h2, h8]

lemma escChar_ne_nil (c : Char) : escChar c ≠ [] := by
  unfold escChar
  split
  · simp
  split
  · simp
  split
  · simp
  split
  · simp
  split
  · simp
  split
  · simp
  split
  · simp
  split
  · simp
  · simp

lemma escChar_append_ne_nil (c : Char) (L : List Char) :
    escChar c ++ L ≠ [] := by
  intro hcon
  exact escChar_ne_nil c (List.append_eq_nil.mp hcon).1

lemma unescape_escape : ∀ cs : List Char, unescape (escape cs) = some cs := by
  intro cs
  induction cs with
  | nil => exact unescape_nil
  | cons c cs ih =>
    rw [escape, unescape_eq_step (escChar c ++ escape cs)
      (escChar_append_ne_nil c (escape cs)) c (escape cs)
      (unescapeStep_escChar c (escape cs))]
    rw [ih]
    rfl

lemma escChar_nonascii (c : Char) (h : 127 < c.toNat) : escChar c = [c] := by
  have h1 : c ≠ '\\' := fun he => absurd (he ▸ h) (by decide)
  have h2 : c ≠ '"' := fun he => absurd (he ▸ h) (by decide)
  have h3 : c ≠ '\x08' := fun he => absurd (he ▸ h) (by decide)
  have h4 : c ≠ '\t' := fun he => absurd (he ▸ h) (by decide)
  have h5 : c ≠ '\n' := fun he => absurd (he ▸ h) (by decide)
  have h6 : c ≠ '\x0c' := fun he => absurd (he ▸ h) (by decide)
  have h7 : c ≠ '\r' := fun he => absurd (he ▸ h) (by decide)
  have h8 : ¬c.toNat < 32 := by omega
  simp [escChar, h1, h2, h3, h4, h5, h6, h7, h8]

/-- Serialization of a stored response value into the JSON document written by
`json.dump(..., ensure_ascii=False)` (the body of its string literal). -/
def jsonEncodeString (s : String) : String := String.mk (escape s.data)

/-- Deserialization of a stored response value by `json.load` (decoding the
body of its string literal). -/
def jsonDecodeString (s : String) : Option String :=
  (unescape s.data).map String.mk

/-- C8: a stored response string — non-ASCII characters included — round-trips
unchanged through the cache file: decoding the serialized form yields the
identical string, and non-ASCII characters are stored unescaped (so with the
UTF-8 read/write encoding the file bytes reproduce the string exactly). -/
theorem json_string_roundtrip (s : String) :
    jsonDecodeString (jsonEncodeString s) = some s ∧
    ∀ c ∈ s.data, 127 < c.toNat → escChar c = [c] := by
  constructor
  · obtain ⟨d⟩ := s
    simp [jsonDecodeString, jsonEncodeString, unescape_escape]
  · intro c _ hnon
    exact escChar_nonascii c hnon

/-- C8 (witness): the round trip evaluated on a concrete non-ASCII string. -/
theorem json_string_roundtrip_witness :
    jsonDecodeString (jsonEncodeString "héllo wörld émoji") =
      some "héllo wörld émoji" :=
  (json_string_roundtrip "héllo wörld émoji").1
